import Mathlib

/-!
Shallow embedding of the agri-monitoring dashboard client (TypeScript/Angular)
and proofs about its session store, API gateway client, polling scheduler and
recommendation normalizer.

Source files embedded:
- AuthService            (auth.service.ts, two near-identical copies)
- ApiService             (api.service.ts)
- DashboardComponent     (dashboard.component.ts)
- AlertsComponent        (alerts.component.ts)
- PlotDetailsComponent   (plot-details.component.ts)

JavaScript conventions carried over explicitly:
- an absent object field / a null localStorage entry is `Option.none`;
- JS truthiness on strings (the empty string is falsy) is `truthyS`;
- `x || d` on strings / numbers is `jsOrS` / `jsOrQ` (0 is falsy for numbers);
- numeric literals such as 0.8 are modelled exactly in ℚ.
-/

namespace AgriMon

/-- JS truthiness of a possibly-absent string: null/undefined and the empty
string are falsy. -/
def truthyS : Option String → Bool
  | none => false
  | some s => s != ""

/-- JS `x || d` for a possibly-absent string value. -/
def jsOrS (v : Option String) (d : String) : String :=
  match v with
  | none => d
  | some s => if s == "" then d else s

/-- JS `x || d` for a possibly-absent numeric value (0 is falsy in JS). -/
def jsOrQ (v : Option ℚ) (d : ℚ) : ℚ :=
  match v with
  | none => d
  | some c => if c == 0 then d else c

/-- Substring occurrence on character lists (structural, kernel-reducible). -/
def includesList (pat : List Char) : List Char → Bool
  | [] => pat.isEmpty
  | c :: rest => List.isPrefixOf pat (c :: rest) || includesList pat rest

/-- JS `s.includes(pat)`: substring test. -/
def includesStr (s pat : String) : Bool :=
  includesList pat.data s.data

/-- JS `s.toLowerCase()` (ASCII case folding, which covers every anomaly-type
string this code compares). -/
def strToLower (s : String) : String :=
  ⟨s.data.map Char.toLower⟩

/-! ## Recommendation payloads and the normalizer (AlertsComponent.formatRecommendation) -/

/-- A raw recommendation payload as delivered by the backend: every field may
be absent (`recommended_action` / `recommendation` / `action` are the three
server-side action shapes; `explanation_text` / `explanation` the two
explanation shapes). -/
structure RecPayload where
  recommended_action : Option String := none
  recommendation : Option String := none
  action : Option String := none
  explanation_text : Option String := none
  explanation : Option String := none
  confidence : Option ℚ := none
deriving DecidableEq, Repr

/-- The canonical recommendation shape produced by the views.
`timestamp` is absent for the plot-details mock path, which builds the record
without a timestamp; `source` is set only by the alerts mock generator. -/
structure CanonicalRec where
  recommended_action : String
  explanation_text : String
  confidence : ℚ
  timestamp : Option String := none
  source : Option String := none
deriving DecidableEq, Repr

/-- The default branch of `AlertsComponent.formatRecommendation` (reached when
none of the three action fields is truthy, or the response is null). -/
def formatDefaultRec (now : String) : CanonicalRec :=
  { recommended_action := "Monitor anomaly and adjust farming practices"
    explanation_text := "Temperature/moisture imbalance detected"
    confidence := 0.75
    timestamp := some now }

/-- AlertsComponent.formatRecommendation (alerts.component.ts lines 148-180):
normalizes the heterogeneous backend payload shapes into `CanonicalRec`.
`now` stands for `new Date().toISOString()`. -/
def formatRecommendation (response : Option RecPayload) (now : String) : CanonicalRec :=
  match response with
  | none => formatDefaultRec now
  | some r =>
    if truthyS r.recommended_action then
      { recommended_action := r.recommended_action.getD ""
        explanation_text := jsOrS r.explanation_text "AI-generated recommendation"
        confidence := jsOrQ r.confidence 0.8
        timestamp := some now }
    else if truthyS r.recommendation then
      { recommended_action := r.recommendation.getD ""
        explanation_text := jsOrS r.explanation "Generated by AI agent"
        confidence := jsOrQ r.confidence 0.7
        timestamp := some now }
    else if truthyS r.action then
      { recommended_action := r.action.getD ""
        explanation_text := jsOrS r.explanation "AI analysis completed"
        confidence := jsOrQ r.confidence 0.75
        timestamp := some now }
    else
      formatDefaultRec now

/-! ## The local fallback generator (AlertsComponent.getMockRecommendation) -/

/-- One entry of the substring-match rule table of
`AlertsComponent.getMockRecommendation`: every condition in the source is
`type.includes(kw1) && type.includes(kw2)`. -/
structure MockRule where
  kw1 : String
  kw2 : String
  action : String
  explanation : String
  confidence : ℚ
deriving DecidableEq, Repr

/-- The ordered rule table of `AlertsComponent.getMockRecommendation`
(alerts.component.ts lines 187-218); order is significant. -/
def mockRecommendations : List MockRule :=
  [ { kw1 := "moisture", kw2 := "low"
      action := "Increase irrigation by 20-30% for the next 48 hours"
      explanation := "Soil moisture below optimal range. Plants showing early signs of water stress."
      confidence := 0.85 },
    { kw1 := "moisture", kw2 := "high"
      action := "Stop irrigation immediately and improve drainage systems"
      explanation := "Excess soil moisture detected. Risk of root rot and fungal diseases."
      confidence := 0.82 },
    { kw1 := "temperature", kw2 := "high"
      action := "Deploy shade nets and increase irrigation frequency"
      explanation := "High temperature stress detected. Crops at risk of heat damage."
      confidence := 0.8 },
    { kw1 := "temperature", kw2 := "low"
      action := "Activate frost protection and reduce irrigation"
      explanation := "Low temperature alert. Protect sensitive crops from frost damage."
      confidence := 0.78 },
    { kw1 := "humidity", kw2 := "high"
      action := "Improve ventilation and monitor for fungal diseases"
      explanation := "High humidity promotes fungal growth and reduces transpiration."
      confidence := 0.75 } ]

/-- Whether a rule of the table matches a (lower-cased) anomaly type. -/
def mockRuleMatches (t : String) (r : MockRule) : Bool :=
  includesStr t r.kw1 && includesStr t r.kw2

/-- One entry of the severity-keyed default table of
`AlertsComponent.getMockRecommendation`. -/
structure SeverityRec where
  action : String
  explanation : String
  confidence : ℚ
deriving DecidableEq, Repr

/-- `defaultActions.high` (alerts.component.ts lines 235-239). -/
def defaultActionsHigh : SeverityRec :=
  { action := "Immediate field inspection required. Consider emergency measures."
    explanation := "Critical anomaly detected. High impact on crop health."
    confidence := 0.9 }

/-- `defaultActions.medium` (alerts.component.ts lines 240-244). -/
def defaultActionsMedium : SeverityRec :=
  { action := "Schedule inspection within 24 hours and adjust practices."
    explanation := "Moderate risk anomaly. Monitor closely."
    confidence := 0.75 }

/-- `defaultActions.low` (alerts.component.ts lines 245-249). -/
def defaultActionsLow : SeverityRec :=
  { action := "Monitor trend and adjust during next regular maintenance."
    explanation := "Minor anomaly. Low immediate risk."
    confidence := 0.65 }

/-- `defaultActions[severity]`: object-key lookup, `none` for any key other
than the three present ones. -/
def defaultActionsLookup (sev : String) : Option SeverityRec :=
  if sev == "high" then some defaultActionsHigh
  else if sev == "medium" then some defaultActionsMedium
  else if sev == "low" then some defaultActionsLow
  else none

/-- An anomaly as held by the alerts / plot-details view state: only the
fields the embedded code reads or writes. -/
structure AnomalyView where
  id : Nat := 0
  anomaly_type : Option String := none
  severity : Option String := none
  agent_recommendation : Option CanonicalRec := none
  loadingRecommendation : Bool := false
deriving DecidableEq, Repr

/-- `anomaly_type?.toLowerCase() || ''` (alerts.component.ts line 184). -/
def normType (ty : Option String) : String :=
  match ty with
  | none => ""
  | some s => strToLower s

/-- The normalized (lower-cased) type of an anomaly row. -/
def normalizedType (a : AnomalyView) : String :=
  normType a.anomaly_type

/-- The action/explanation/confidence triple selected by
AlertsComponent.getMockRecommendation from the two anomaly fields it reads:
first matching rule of `mockRecommendations` wins; with no match, the
severity-keyed default table is used, `defaultActions.medium` for unknown
severities. -/
def mockSelect (ty sev : Option String) : SeverityRec :=
  let t := normType ty
  let severity := jsOrS sev "medium"
  match mockRecommendations.find? (mockRuleMatches t) with
  | some r => { action := r.action, explanation := r.explanation, confidence := r.confidence }
  | none => (defaultActionsLookup severity).getD defaultActionsMedium

/-- AlertsComponent.getMockRecommendation (alerts.component.ts lines 182-261):
the local deterministic fallback generator, packaging `mockSelect`'s triple
with the current timestamp and the mock source tag. -/
def getMockRecommendation (a : AnomalyView) (now : String) : CanonicalRec :=
  let m := mockSelect a.anomaly_type a.severity
  { recommended_action := m.action
    explanation_text := m.explanation
    confidence := m.confidence
    timestamp := some now
    source := some "ai_agent_mock" }

/-! ## Session store (AuthService) and persisted storage -/

/-- A user profile (auth.service.ts `interface User`); `role` is recomputed
client-side from the staff/superuser flags. -/
structure User where
  id : Nat := 0
  username : String := ""
  email : String := ""
  first_name : String := ""
  last_name : String := ""
  role : String := ""
  is_staff : Bool := false
  is_superuser : Bool := false
deriving DecidableEq, Repr

/-- The token pair returned by `POST /auth/login/`
(auth.service.ts `interface LoginResponse`). -/
structure LoginResponse where
  access : String
  refresh : String
deriving DecidableEq, Repr

/-- The response of `POST /auth/refresh/`. -/
structure RefreshResponse where
  access : String
deriving DecidableEq, Repr

/-- The localStorage keys this codebase touches. AuthService uses
`access_token` / `refresh_token` / `user_data`; ApiService.logout additionally
removes a `user` key. `none` models an absent key. -/
structure Storage where
  access_token : Option String := none
  refresh_token : Option String := none
  user_data : Option User := none
  user : Option String := none
deriving DecidableEq, Repr

/-- AuthService's observable state: the current values of the
`isLoggedIn$` / `userRole$` / `currentUser$` BehaviorSubjects. -/
structure Observables where
  isLoggedIn : Bool := false
  userRole : String := ""
  currentUser : Option User := none
deriving DecidableEq, Repr

/-- The whole client-side session state: persisted storage, observable
session state, and the last route navigated to. -/
structure AppState where
  store : Storage := {}
  obs : Observables := {}
  route : Option String := none
deriving DecidableEq, Repr

/-- The state at process start before any storage writes. -/
def initialAppState : AppState := {}

/-- Role derivation (auth.service.ts line 85): admin iff staff-or-superuser,
else farmer. -/
def deriveRole (u : User) : String :=
  if u.is_staff || u.is_superuser then "admin" else "farmer"

/-- AuthService.logout (auth.service.ts lines 125-137): removes the three
storage keys, resets the three observables, navigates to `/login`. -/
def authLogout (s : AppState) : AppState :=
  { store := { s.store with access_token := none, refresh_token := none, user_data := none }
    obs := { isLoggedIn := false, userRole := "", currentUser := none }
    route := some "/login" }

/-- ApiService.logout (api.service.ts lines 76-79): removes only the
`access_token` and `user` storage keys (no observable update, no navigation). -/
def apiLogout (st : Storage) : Storage :=
  { st with access_token := none, user := none }

/-- AuthService.checkTokenValidity (auth.service.ts lines 188-197), run at
startup: if a token is present (JS-truthy, per `isTokenValid`) and a stored
user parses, restore the observables from storage without a network call. -/
def checkTokenValidity (s : AppState) : AppState :=
  if truthyS s.store.access_token then
    match s.store.user_data with
    | some u => { s with obs := { isLoggedIn := true, userRole := u.role, currentUser := some u } }
    | none => s
  else s

/-- AuthService.login (auth.service.ts lines 58-101). The environment is
summarized by the two network results: the token exchange and the profile
fetch (the latter is only consulted when the exchange succeeded). On a
successful exchange both tokens are written to storage BEFORE the profile
fetch; a profile-fetch failure re-throws without touching storage or the
observables. The returned `Except` is what the caller observes. -/
def login (s : AppState) (tokenRes : Except String LoginResponse)
    (profileRes : Except String User) : AppState × Except String Unit :=
  match tokenRes with
  | .error e => (s, .error e)
  | .ok tr =>
    let s1 : AppState :=
      { s with store := { s.store with access_token := some tr.access, refresh_token := some tr.refresh } }
    match profileRes with
    | .error e => (s1, .error e)
    | .ok u =>
      let role := deriveRole u
      let userData : User := { u with role := role }
      ({ store := { s1.store with user_data := some userData }
         obs := { isLoggedIn := true, userRole := role, currentUser := some userData }
         route := some "/dashboard" }, .ok ())

/-- AuthService.refreshToken (auth.service.ts lines 103-122): a missing
(JS-falsy) refresh token forces logout with no network call; a network
failure forces logout; success overwrites the stored access token. -/
def refreshTokenOp (s : AppState) (res : Except String RefreshResponse) :
    AppState × Except String Unit :=
  if truthyS s.store.refresh_token then
    match res with
    | .ok r => ({ s with store := { s.store with access_token := some r.access } }, .ok ())
    | .error e => (authLogout s, .error e)
  else
    (authLogout s, .error "No refresh token")

/-- DashboardComponent.logout (dashboard.component.ts lines 247-250): removes
only the `access_token` key and navigates; the refresh token, stored user and
the AuthService observables are untouched. PlotDetailsComponent.logout
(plot-details.component.ts lines 415-418) is identical. -/
def dashboardLogout (s : AppState) : AppState :=
  { s with store := { s.store with access_token := none }, route := some "/login" }

/-- AlertsComponent.logout (alerts.component.ts lines 350-353):
`authService.logout()` followed by a navigation to `/login`. -/
def alertsLogout (s : AppState) : AppState :=
  { authLogout s with route := some "/login" }

/-- The error handler of DashboardComponent.loadDashboardData
(dashboard.component.ts lines 87-92): on HTTP status 401 it calls the
component's own `logout`; any other failure leaves the state alone. -/
def dashboardLoadError (s : AppState) (status : Nat) : AppState :=
  if status == 401 then dashboardLogout s else s

/-- The session invariant of the spec, as a decidable check: the observable
login flag implies a non-empty persisted access token. -/
def sessionInv (s : AppState) : Bool :=
  !s.obs.isLoggedIn || truthyS s.store.access_token

/-! ## API gateway client headers (ApiService.getHeaders) -/

/-- ApiService.getHeaders (api.service.ts lines 59-65): always two headers;
the Authorization value is `Bearer <token>` when the stored token is JS-truthy
and the empty string otherwise (the header itself is never omitted). -/
def apiGetHeaders (tok : Option String) : List (String × String) :=
  [("Content-Type", "application/json"),
   ("Authorization", if truthyS tok then "Bearer " ++ tok.getD "" else "")]

/-- An HTTP request as assembled by an ApiService method. -/
structure HttpRequest where
  method : String
  url : String
  headers : List (String × String)
deriving DecidableEq, Repr

/-- ApiService.getAnomalies (api.service.ts lines 150-152): the headers are
built from the storage contents at the moment of the call. -/
def getAnomaliesReq (st : Storage) : HttpRequest :=
  { method := "GET", url := "http://localhost:8000/api/anomalies/"
    headers := apiGetHeaders st.access_token }

/-- ApiService.generateRecommendation (api.service.ts lines 158-160),
likewise reading the token from storage at call time. -/
def generateRecommendationReq (st : Storage) (anomalyId : Nat) : HttpRequest :=
  { method := "POST"
    url := "http://localhost:8000/api/anomalies/" ++ toString anomalyId ++ "/recommend/"
    headers := apiGetHeaders st.access_token }

/-! ## Per-view recommendation failure paths -/

/-- The error path of AlertsComponent.generateRecommendation
(alerts.component.ts lines 127-136): attach the local mock recommendation to
the anomaly and clear its loading flag. -/
def alertsGenRecOnError (a : AnomalyView) (now : String) : AnomalyView :=
  { a with agent_recommendation := some (getMockRecommendation a now)
           loadingRecommendation := false }

/-- An anomaly row of the dashboard view: the dashboard stores the backend's
`recommended_action` string directly. -/
structure DashAnomaly where
  id : Nat
  agent_recommendation : Option String := none
deriving DecidableEq, Repr

/-- The dashboard view state touched by its recommendation workflow. -/
structure DashboardViewState where
  recentAnomalies : List DashAnomaly := []
  alertMessage : Option String := none
deriving DecidableEq, Repr

/-- The error path of DashboardComponent.generateRecommendation
(dashboard.component.ts lines 240-244): it pops a browser alert and leaves
the anomaly list untouched — no fallback recommendation is attached. -/
def dashboardGenRecOnError (v : DashboardViewState) : DashboardViewState :=
  { v with alertMessage := some "Could not generate recommendation. Please try again." }

/-- One entry of the mock table of PlotDetailsComponent.generateRecommendation's
error path. -/
structure PlotMock where
  action : String
  explanation : String
  confidence : ℚ
deriving DecidableEq, Repr

/-- The four-entry mock table of PlotDetailsComponent.generateRecommendation's
error path (plot-details.component.ts lines 325-330). -/
def plotMockTable : List PlotMock :=
  [ { action := "Increase irrigation by 20% for 2 days"
      explanation := "Low soil moisture detected", confidence := 0.8 },
    { action := "Reduce irrigation and check drainage"
      explanation := "Excess soil moisture", confidence := 0.75 },
    { action := "Install temporary shade"
      explanation := "High temperature stress", confidence := 0.7 },
    { action := "Monitor for frost protection"
      explanation := "Low temperature alert", confidence := 0.65 } ]

/-- The error path of PlotDetailsComponent.generateRecommendation
(plot-details.component.ts lines 321-343): it picks the entry at
`Math.floor(Math.random() * mockRecommendations.length)` — modelled by the
index `k < 4` — and attaches it (no timestamp field is set). -/
def plotDetailsGenRecOnError (sel : AnomalyView) (k : Nat) : AnomalyView :=
  let m := plotMockTable.getD k { action := "", explanation := "", confidence := 0 }
  { sel with
    agent_recommendation := some
      { recommended_action := m.action, explanation_text := m.explanation
        confidence := m.confidence }
    loadingRecommendation := false }

/-! ## Polling scheduler (AlertsComponent.startAutoRefresh) -/

/-- One 1-second tick of AlertsComponent.startAutoRefresh
(alerts.component.ts lines 303-311): decrement `refreshCountdown`; when the
decremented value is ≤ 0, fire the refresh and reset the countdown to 30.
Returns the countdown left in the component and whether the refresh fired. -/
def tick (c : Int) : Int × Bool :=
  if c - 1 ≤ 0 then (30, true) else (c - 1, false)

/-- Run `n` ticks from countdown `c`; returns the final countdown and how
many times the refresh fired. -/
def runTicks (c : Int) : Nat → Int × Nat
  | 0 => (c, 0)
  | n + 1 =>
    let t := tick c
    let r := runTicks t.1 n
    (r.1, (if t.2 then 1 else 0) + r.2)

/-- Countdown values reachable from the initial value 30 under the tick step
relation (the value stored in `refreshCountdown` between ticks). -/
inductive SchedReach : Int → Prop
  | init : SchedReach 30
  | step : ∀ c, SchedReach c → SchedReach (tick c).1

/-- `login`'s token-exchange input carries a non-empty access token (true for
any real backend; failures are unconstrained). -/
def okAccess : Except String LoginResponse → Bool
  | .ok t => t.access != ""
  | .error _ => true

/-- `refreshTokenOp`'s input carries a non-empty access token when it
succeeds. -/
def okRefresh : Except String RefreshResponse → Bool
  | .ok r => r.access != ""
  | .error _ => true

/-! ## Basic lemmas -/

theorem truthyS_some {s : String} (h : s ≠ "") : truthyS (some s) = true := by
  simp [truthyS, h]

theorem truthyS_eq_true {v : Option String} (h : truthyS v = true) :
    ∃ s, v = some s ∧ s ≠ "" := by
  match v with
  | none => simp [truthyS] at h
  | some s =>
    refine ⟨s, rfl, ?_⟩
    simpa [truthyS] using h

/-! ## Claim theorems -/

/-- C4: the normalizer picks the canonical action by first-match-wins
precedence recommended_action → recommendation → action → fixed default text;
with no confidence field the matched branch supplies its default
0.8 / 0.7 / 0.75 / 0.75; for any payload with both recommended_action and
recommendation set (present and non-empty, JS-truthy), the canonical action
is recommended_action's value; and the payload with only `recommendation = "x"`
yields confidence exactly 0.7. -/
theorem C4_normalizer_precedence_and_confidence_defaults :
    (∀ (p : RecPayload) (now a : String), p.recommended_action = some a → a ≠ "" →
        truthyS p.recommendation = true →
        (formatRecommendation (some p) now).recommended_action = a)
    ∧ (∀ now, (formatRecommendation (some { recommendation := some "x" }) now).confidence = 0.7)
    ∧ (∀ (p : RecPayload) (now : String), p.confidence = none →
        ((truthyS p.recommended_action = true →
            (formatRecommendation (some p) now).confidence = 0.8)
          ∧ (truthyS p.recommended_action = false → truthyS p.recommendation = true →
            (formatRecommendation (some p) now).confidence = 0.7)
          ∧ (truthyS p.recommended_action = false → truthyS p.recommendation = false →
              truthyS p.action = true →
            (formatRecommendation (some p) now).confidence = 0.75)
          ∧ (truthyS p.recommended_action = false → truthyS p.recommendation = false →
              truthyS p.action = false →
            (formatRecommendation (some p) now).confidence = 0.75)))
    ∧ (∀ (p : RecPayload) (now : String),
        ((truthyS p.recommended_action = true →
            (formatRecommendation (some p) now).recommended_action = p.recommended_action.getD "")
          ∧ (truthyS p.recommended_action = false → truthyS p.recommendation = true →
            (formatRecommendation (some p) now).recommended_action = p.recommendation.getD "")
          ∧ (truthyS p.recommended_action = false → truthyS p.recommendation = false →
              truthyS p.action = true →
            (formatRecommendation (some p) now).recommended_action = p.action.getD "")
          ∧ (truthyS p.recommended_action = false → truthyS p.recommendation = false →
              truthyS p.action = false →
            (formatRecommendation (some p) now).recommended_action
              = "Monitor anomaly and adjust farming practices"))) := by
  refine ⟨?_, ?_, ?_, ?_⟩
  · intro p now a hset hne _
    simp [formatRecommendation, hset, truthyS_some hne]
  · intro now
    rfl
  · intro p now hconf
    refine ⟨?_, ?_, ?_, ?_⟩ <;> intros <;>
      simp_all [formatRecommendation, formatDefaultRec, jsOrQ]
  · intro p now
    refine ⟨?_, ?_, ?_, ?_⟩ <;> intros <;>
      simp_all [formatRecommendation, formatDefaultRec]

/-- C4 witness: concrete instances of the precedence and default-confidence
statements. -/
theorem C4_witness :
    (formatRecommendation (some { recommended_action := some "ra", recommendation := some "rx" }) "T").recommended_action = "ra"
    ∧ (formatRecommendation (some { recommendation := some "x" }) "T").confidence = 0.7 :=
  ⟨C4_normalizer_precedence_and_confidence_defaults.1
      { recommended_action := some "ra", recommendation := some "rx" } "T" "ra" rfl
      (by decide) (by decide),
    C4_normalizer_precedence_and_confidence_defaults.2.1 "T"⟩

/-- C5 counterexample: in the recommended_action branch the normalizer never
consults the `explanation` field — the payload with `recommended_action = "a"`,
`explanation_text` absent and `explanation = "e"` yields the fixed text
"AI-generated recommendation", not "e". -/
theorem C5_counterexample :
    (formatRecommendation (some { recommended_action := some "a", explanation := some "e" }) "T").explanation_text
      = "AI-generated recommendation"
    ∧ (formatRecommendation (some { recommended_action := some "a", explanation := some "e" }) "T").explanation_text
      ≠ "e" :=
  ⟨rfl, by decide⟩

/-- C5 (amended): explanation selection is per-branch, not a global
explanation_text → explanation → default chain. The recommendation and action
branches do fall back to the payload's `explanation`; the recommended_action
branch consults only `explanation_text` and otherwise uses its fixed text,
ignoring `explanation`. -/
theorem C5_explanation_per_branch :
    ∀ (p : RecPayload) (now e : String), p.explanation = some e → e ≠ "" →
      ((truthyS p.recommended_action = false → truthyS p.recommendation = true →
          (formatRecommendation (some p) now).explanation_text = e)
        ∧ (truthyS p.recommended_action = false → truthyS p.recommendation = false →
            truthyS p.action = true →
          (formatRecommendation (some p) now).explanation_text = e)
        ∧ (truthyS p.recommended_action = true → truthyS p.explanation_text = false →
          (formatRecommendation (some p) now).explanation_text
            = "AI-generated recommendation")) := by
  intro p now e hset hne
  refine ⟨?_, ?_, ?_⟩
  · intros
    simp_all [formatRecommendation, formatDefaultRec, jsOrS, truthyS]
  · intros
    simp_all [formatRecommendation, formatDefaultRec, jsOrS, truthyS]
  · intro h1 h2
    cases het : p.explanation_text with
    | none => simp_all [formatRecommendation, jsOrS]
    | some s =>
      have hs : s = "" := by simpa [truthyS, het] using h2
      simp_all [formatRecommendation, jsOrS]

/-- C5 witness: the amended statement at concrete payloads for the
recommendation branch and the recommended_action branch. -/
theorem C5_witness :
    (formatRecommendation (some { recommendation := some "r", explanation := some "e" }) "T").explanation_text = "e"
    ∧ (formatRecommendation (some { recommended_action := some "a", explanation := some "e" }) "T").explanation_text
      = "AI-generated recommendation" :=
  ⟨(C5_explanation_per_branch { recommendation := some "r", explanation := some "e" } "T" "e"
      rfl (by decide)).1 (by decide) (by decide),
    (C5_explanation_per_branch { recommended_action := some "a", explanation := some "e" } "T" "e"
      rfl (by decide)).2.2 (by decide) (by decide)⟩

/-- C6: the local fallback generator maps every anomaly of type
"low_soil_moisture" (which contains both "moisture" and "low"), whatever the
severity, to the fixed action "Increase irrigation by 20-30% for the next 48
hours" with confidence 0.85; more generally the first rule of the ordered
table wins whenever its two keywords occur in the normalized type; and when
no rule matches and the severity is none of high/medium/low, the medium
default entry is used. -/
theorem C6_mock_rule_table :
    (∀ (sev : Option String) (now : String),
        (getMockRecommendation { anomaly_type := some "low_soil_moisture", severity := sev } now).recommended_action
          = "Increase irrigation by 20-30% for the next 48 hours"
        ∧ (getMockRecommendation { anomaly_type := some "low_soil_moisture", severity := sev } now).confidence
          = 0.85)
    ∧ (∀ (a : AnomalyView) (now : String),
        includesStr (normalizedType a) "moisture" = true →
        includesStr (normalizedType a) "low" = true →
        (getMockRecommendation a now).recommended_action
          = "Increase irrigation by 20-30% for the next 48 hours"
        ∧ (getMockRecommendation a now).confidence = 0.85)
    ∧ (∀ (a : AnomalyView) (now : String),
        mockRecommendations.find? (mockRuleMatches (normalizedType a)) = none →
        defaultActionsLookup (jsOrS a.severity "medium") = none →
        getMockRecommendation a now
          = { recommended_action := defaultActionsMedium.action
              explanation_text := defaultActionsMedium.explanation
              confidence := defaultActionsMedium.confidence
              timestamp := some now
              source := some "ai_agent_mock" }) := by
  refine ⟨?_, ?_, ?_⟩
  · intro sev now
    exact ⟨rfl, rfl⟩
  · intro a now h1 h2
    simp only [normalizedType] at h1 h2
    simp [getMockRecommendation, mockSelect, mockRecommendations, List.find?, mockRuleMatches,
      h1, h2]
  · intro a now h1 h2
    simp only [normalizedType] at h1
    simp [getMockRecommendation, mockSelect, h1, h2]

/-- C6 witness: concrete instances — a type matching both the first and the
third rule gets the first rule's entry, and an unmatched type with an unknown
severity gets the medium default entry. -/
theorem C6_witness :
    (getMockRecommendation { anomaly_type := some "low_moisture_high_temperature", severity := some "low" } "T").recommended_action
      = "Increase irrigation by 20-30% for the next 48 hours"
    ∧ (getMockRecommendation { anomaly_type := some "sensor_glitch", severity := some "extreme" } "T").recommended_action
      = defaultActionsMedium.action :=
  ⟨(C6_mock_rule_table.2.1 { anomaly_type := some "low_moisture_high_temperature", severity := some "low" } "T"
      (by decide) (by decide)).1,
    by
      have h := C6_mock_rule_table.2.2 { anomaly_type := some "sensor_glitch", severity := some "extreme" } "T"
        (by decide) (by decide)
      rw [h]⟩

/-- C1 counterexample: a login run whose token exchange succeeds and whose
profile fetch fails leaves both exchanged tokens in persisted storage — the
write is not rolled back. -/
theorem C1_counterexample :
    (login initialAppState (Except.ok ⟨"tokA", "tokR"⟩) (Except.error "profile fetch failed")).1.store.access_token
      = some "tokA"
    ∧ (login initialAppState (Except.ok ⟨"tokA", "tokR"⟩) (Except.error "profile fetch failed")).1.store.refresh_token
      = some "tokR"
    ∧ (login initialAppState (Except.ok ⟨"tokA", "tokR"⟩) (Except.error "profile fetch failed")).1.store.access_token
      ≠ none :=
  ⟨rfl, rfl, by decide⟩

/-- C1 (amended): when the token exchange succeeds and the profile fetch
fails, the observable session state is left exactly as it was (so a session
that started logged-out stays logged-out) and the failure is surfaced to the
caller, but the access and refresh tokens written to persisted storage during
the attempt remain there — no rollback happens. -/
theorem C1_profile_failure_keeps_tokens :
    ∀ (s : AppState) (tr : LoginResponse) (e : String),
      login s (Except.ok tr) (Except.error e)
        = ({ s with store := { s.store with access_token := some tr.access,
                                            refresh_token := some tr.refresh } },
            Except.error e) := by
  intro s tr e
  rfl

/-- C2 counterexample: from a fully logged-in state, a 401 on the dashboard
data load leaves the refresh token persisted and the observable login flag
true — not all tokens are cleared and the login state does not become false. -/
theorem C2_counterexample :
    (dashboardLoadError
        { store := { access_token := some "a", refresh_token := some "r", user_data := some {} }
          obs := { isLoggedIn := true, userRole := "admin", currentUser := some {} }
          route := some "/dashboard" } 401).store.refresh_token = some "r"
    ∧ (dashboardLoadError
        { store := { access_token := some "a", refresh_token := some "r", user_data := some {} }
          obs := { isLoggedIn := true, userRole := "admin", currentUser := some {} }
          route := some "/dashboard" } 401).obs.isLoggedIn = true :=
  ⟨rfl, rfl⟩

/-- C2 (amended): a 401 on the dashboard data load triggers the dashboard's
own logout handler, which removes only the persisted access token and
navigates to the login view; the refresh token, the stored user and the
observable login flag are all left as they were. Clearing every token and
resetting the flag happens only through AuthService.logout, as the alerts
view's logout button does. -/
theorem C2_dashboard_401_partial_clear :
    ∀ s : AppState,
      dashboardLoadError s 401
        = { s with store := { s.store with access_token := none }, route := some "/login" }
      ∧ ((alertsLogout s).store.access_token = none
          ∧ (alertsLogout s).store.refresh_token = none
          ∧ (alertsLogout s).obs.isLoggedIn = false) := by
  intro s
  exact ⟨rfl, rfl, rfl, rfl⟩

/-- C3 counterexample: the dashboard's view-level logout handler removes the
persisted access token without resetting the observable login flag, so from a
logged-in state satisfying the invariant it produces a state with
`isLoggedIn = true` and no access token. -/
theorem C3_counterexample :
    sessionInv { store := { access_token := some "tok" }, obs := { isLoggedIn := true } } = true
    ∧ sessionInv (dashboardLogout { store := { access_token := some "tok" }, obs := { isLoggedIn := true } })
      = false :=
  ⟨rfl, rfl⟩

/-- C3 (amended): the invariant (login flag true implies a non-empty
persisted access token) is preserved by startup rehydration, by
AuthService.logout, by the alerts view's logout handler, by login and by
refreshToken — the last two provided the backend-issued access token is
non-empty — but NOT by the dashboard (and plot-details) view-level logout
handler, which clears the token while leaving the flag untouched. -/
theorem C3_invariant_preservation :
    (∀ s, sessionInv s = true → sessionInv (checkTokenValidity s) = true)
    ∧ (∀ s, sessionInv (authLogout s) = true)
    ∧ (∀ s, sessionInv (alertsLogout s) = true)
    ∧ (∀ s tr pr, sessionInv s = true → okAccess tr = true →
        sessionInv (login s tr pr).1 = true)
    ∧ (∀ s res, sessionInv s = true → okRefresh res = true →
        sessionInv (refreshTokenOp s res).1 = true) := by
  refine ⟨?_, ?_, ?_, ?_, ?_⟩
  · intro s hs
    unfold checkTokenValidity
    by_cases h : truthyS s.store.access_token = true
    · rw [if_pos h]
      cases s.store.user_data with
      | none => exact hs
      | some u => simp [sessionInv, h]
    · rw [if_neg h]
      exact hs
  · intro s
    rfl
  · intro s
    rfl
  · intro s tr pr hs hok
    cases tr with
    | error e => exact hs
    | ok t =>
      cases pr with
      | error e =>
        simp_all [login, sessionInv, okAccess, truthyS]
      | ok u =>
        simp_all [login, sessionInv, okAccess, truthyS]
  · intro s res hs hok
    unfold refreshTokenOp
    by_cases h : truthyS s.store.refresh_token = true
    · rw [if_pos h]
      cases res with
      | ok r =>
        have hr : r.access ≠ "" := by simpa [okRefresh] using hok
        simp [sessionInv, truthyS_some hr]
      | error e => rfl
    · rw [if_neg h]
      rfl

/-- C3 witness: the preservation clauses instantiated at concrete states and
network results. -/
theorem C3_witness :
    sessionInv (login initialAppState (Except.ok ⟨"tok", "ref"⟩) (Except.ok {})).1 = true
    ∧ sessionInv (refreshTokenOp { store := { refresh_token := some "ref" } } (Except.ok ⟨"tok2"⟩)).1 = true
    ∧ sessionInv (checkTokenValidity { store := { access_token := some "tok", user_data := some {} } }) = true :=
  ⟨C3_invariant_preservation.2.2.2.1 initialAppState (Except.ok ⟨"tok", "ref"⟩) (Except.ok {})
      (by decide) (by decide),
    C3_invariant_preservation.2.2.2.2 { store := { refresh_token := some "ref" } } (Except.ok ⟨"tok2"⟩)
      (by decide) (by decide),
    C3_invariant_preservation.1 { store := { access_token := some "tok", user_data := some {} } }
      (by decide)⟩

/-- C9: AuthService.logout is idempotent (a second call changes nothing,
including the navigation target), ApiService.logout is idempotent on storage,
and calling AuthService.logout in an already logged-out state leaves the
persisted storage and the observable state unchanged. -/
theorem C9_logout_idempotent :
    (∀ s, authLogout (authLogout s) = authLogout s)
    ∧ (∀ st, apiLogout (apiLogout st) = apiLogout st)
    ∧ (∀ s : AppState, s.store.access_token = none → s.store.refresh_token = none →
        s.store.user_data = none →
        s.obs = { isLoggedIn := false, userRole := "", currentUser := none } →
        (authLogout s).store = s.store ∧ (authLogout s).obs = s.obs) := by
  refine ⟨?_, ?_, ?_⟩
  · intro s
    rfl
  · intro st
    rfl
  · intro s h1 h2 h3 h4
    obtain ⟨⟨a, b, c, d⟩, obs, route⟩ := s
    simp_all [authLogout]

/-- C9 witness: logging out of the pristine logged-out state changes neither
storage nor observables. -/
theorem C9_witness :
    (authLogout initialAppState).store = initialAppState.store
    ∧ (authLogout initialAppState).obs = initialAppState.obs :=
  C9_logout_idempotent.2.2 initialAppState rfl rfl rfl rfl

/-- C10: with no access token in storage at call time, the authenticated
request methods still send an Authorization header whose value is the empty
string (the code treats an empty-string token the same as an absent one, so
"a token t is present" is a stored, non-empty t); with such a token present
the value is exactly "Bearer " followed by t, read from the storage passed at
the moment of the call. -/
theorem C10_authorization_header :
    (∀ (st : Storage) (id : Nat), st.access_token = none →
        (getAnomaliesReq st).headers
          = [("Content-Type", "application/json"), ("Authorization", "")]
        ∧ (generateRecommendationReq st id).headers
          = [("Content-Type", "application/json"), ("Authorization", "")])
    ∧ (∀ (st : Storage) (t : String) (id : Nat), st.access_token = some t → t ≠ "" →
        (getAnomaliesReq st).headers
          = [("Content-Type", "application/json"), ("Authorization", "Bearer " ++ t)]
        ∧ (generateRecommendationReq st id).headers
          = [("Content-Type", "application/json"), ("Authorization", "Bearer " ++ t)]) := by
  constructor
  · intro st id h
    constructor <;> simp [getAnomaliesReq, generateRecommendationReq, apiGetHeaders, h, truthyS]
  · intro st t id h ht
    constructor <;>
      simp [getAnomaliesReq, generateRecommendationReq, apiGetHeaders, h, truthyS_some ht]

/-- C10 witness: the header at an empty storage and at a storage holding the
token "tok". -/
theorem C10_witness :
    (getAnomaliesReq {}).headers = [("Content-Type", "application/json"), ("Authorization", "")]
    ∧ (getAnomaliesReq { access_token := some "tok" }).headers
      = [("Content-Type", "application/json"), ("Authorization", "Bearer tok")] :=
  ⟨(C10_authorization_header.1 {} 0 rfl).1,
    (C10_authorization_header.2 { access_token := some "tok" } "tok" 0 rfl (by decide)).1⟩

/-- C7 counterexample: the dashboard view's recommendation-failure path
surfaces a browser alert and attaches no recommendation at all — the anomaly
list is returned untouched, with its recommendation still absent. -/
theorem C7_counterexample :
    (dashboardGenRecOnError { recentAnomalies := [{ id := 1 }] }).recentAnomalies
      = [{ id := 1 }]
    ∧ (dashboardGenRecOnError { recentAnomalies := [{ id := 1 }] }).alertMessage
      = some "Could not generate recommendation. Please try again."
    ∧ ({ id := 1 : DashAnomaly }).agent_recommendation = none :=
  ⟨rfl, rfl, rfl⟩

/-- C7 (amended): only the alerts view's failure path attaches the local
deterministic fallback — and that generator depends only on the anomaly's
type and severity, so two failures for the same anomaly get the same action,
explanation and confidence. The plot-details view instead attaches a
randomly-indexed entry of a fixed four-entry mock table, and the dashboard
view surfaces an alert and attaches nothing. -/
theorem C7_fallback_paths :
    (∀ (a : AnomalyView) (now : String),
        (alertsGenRecOnError a now).agent_recommendation = some (getMockRecommendation a now))
    ∧ (∀ (a b : AnomalyView) (now now₂ : String),
        a.anomaly_type = b.anomaly_type → a.severity = b.severity →
        (getMockRecommendation a now).recommended_action
            = (getMockRecommendation b now₂).recommended_action
        ∧ (getMockRecommendation a now).explanation_text
            = (getMockRecommendation b now₂).explanation_text
        ∧ (getMockRecommendation a now).confidence = (getMockRecommendation b now₂).confidence)
    ∧ (∀ v, (dashboardGenRecOnError v).recentAnomalies = v.recentAnomalies)
    ∧ (∀ (sel : AnomalyView) (k : Nat), k < 4 →
        ∃ m : PlotMock, m ∈ plotMockTable
          ∧ (plotDetailsGenRecOnError sel k).agent_recommendation
            = some { recommended_action := m.action, explanation_text := m.explanation
                     confidence := m.confidence }) := by
  refine ⟨?_, ?_, ?_, ?_⟩
  · intro a now
    rfl
  · intro a b now now₂ h1 h2
    refine ⟨?_, ?_, ?_⟩
    · show (mockSelect a.anomaly_type a.severity).action
        = (mockSelect b.anomaly_type b.severity).action
      rw [h1, h2]
    · show (mockSelect a.anomaly_type a.severity).explanation
        = (mockSelect b.anomaly_type b.severity).explanation
      rw [h1, h2]
    · show (mockSelect a.anomaly_type a.severity).confidence
        = (mockSelect b.anomaly_type b.severity).confidence
      rw [h1, h2]
  · intro v
    rfl
  · intro sel k hk
    refine ⟨plotMockTable.getD k { action := "", explanation := "", confidence := 0 }, ?_, rfl⟩
    interval_cases k <;> simp [plotMockTable]

/-- C7 witness: the amended clauses instantiated at a concrete anomaly (two
failures, different timestamps, same fallback fields) and a concrete random
index for the plot-details path. -/
theorem C7_witness :
    ((alertsGenRecOnError { anomaly_type := some "low_soil_moisture", severity := some "high" } "T1").agent_recommendation
        = some (getMockRecommendation { anomaly_type := some "low_soil_moisture", severity := some "high" } "T1"))
    ∧ (getMockRecommendation { anomaly_type := some "low_soil_moisture", severity := some "high" } "T1").recommended_action
        = (getMockRecommendation { anomaly_type := some "low_soil_moisture", severity := some "high" } "T2").recommended_action
    ∧ ∃ m : PlotMock, m ∈ plotMockTable
        ∧ (plotDetailsGenRecOnError { anomaly_type := some "x" } 2).agent_recommendation
          = some { recommended_action := m.action, explanation_text := m.explanation
                   confidence := m.confidence } :=
  ⟨C7_fallback_paths.1 { anomaly_type := some "low_soil_moisture", severity := some "high" } "T1",
    (C7_fallback_paths.2.1 { anomaly_type := some "low_soil_moisture", severity := some "high" }
      { anomaly_type := some "low_soil_moisture", severity := some "high" } "T1" "T2" rfl rfl).1,
    C7_fallback_paths.2.2.2 { anomaly_type := some "x" } 2 (by decide)⟩

/-- Splitting a tick run: running `m + n` ticks is running `m` ticks and then
`n` more, and the fire counts add. -/
theorem runTicks_add (m n : Nat) (c : Int) :
    runTicks c (m + n)
      = ((runTicks (runTicks c m).1 n).1,
          (runTicks c m).2 + (runTicks (runTicks c m).1 n).2) := by
  induction m generalizing c with
  | zero => simp [runTicks]
  | succ m ih =>
    rw [Nat.succ_add]
    simp only [runTicks, ih, Prod.ext_iff]
    refine ⟨trivial, by omega⟩

/-- Every countdown value reachable from 30 lies in [1, 30]. -/
theorem schedReach_bounds (c : Int) (h : SchedReach c) : 1 ≤ c ∧ c ≤ 30 := by
  induction h with
  | init => omega
  | step c hc ih =>
    by_cases h1 : c - 1 ≤ 0
    · simp only [tick, if_pos h1]
      omega
    · simp only [tick, if_neg h1]
      omega

set_option maxRecDepth 4000 in
/-- Thirty ticks from countdown 30 return to 30 with exactly one fire. -/
theorem runTicks_thirty : runTicks 30 30 = (30, 1) := by
  decide

/-- C8: for the alerts scheduler (1-second tick, trigger count 30, initial
countdown 30), the decremented countdown is never negative in any reachable
state and stored values stay in [1, 30]; a block of 30 ticks from countdown 30
fires the refresh exactly once and returns the countdown to 30; and `n` such
blocks fire exactly `n` times, i.e. the countdown cycles 30 → 0 → 30. -/
theorem C8_countdown_cycle :
    (∀ c, SchedReach c → 0 ≤ c - 1 ∧ 0 ≤ c ∧ c ≤ 30)
    ∧ runTicks 30 30 = (30, 1)
    ∧ (∀ n, runTicks 30 (30 * n) = (30, n)) := by
  refine ⟨?_, runTicks_thirty, ?_⟩
  · intro c h
    have := schedReach_bounds c h
    omega
  · intro n
    induction n with
    | zero => rfl
    | succ n ih =>
      rw [Nat.mul_succ, runTicks_add, ih]
      show ((runTicks 30 30).1, n + (runTicks 30 30).2) = (30, n + 1)
      rw [runTicks_thirty]

/-- C8 witness: the reachable initial state 30 is in bounds, and 60 ticks
from 30 fire exactly twice. -/
theorem C8_witness :
    (0 ≤ (30 : Int) - 1 ∧ 0 ≤ (30 : Int) ∧ (30 : Int) ≤ 30)
    ∧ runTicks 30 60 = (30, 2) :=
  ⟨C8_countdown_cycle.1 30 SchedReach.init, C8_countdown_cycle.2.2 2⟩

end AgriMon
